import Mathlib

/-!
Verification development for the terriajs layered trait-resolution core.

The definitions below are a shallow embedding of the TypeScript source:

* `PrimitiveTrait` (`Traits/primitiveTrait.ts`): `getValue`, `fromJson`,
  `toJson`, `isSameType`;
* `GetCapabilitiesStratum` / `DiffStratum` / `WebMapServiceCatalogItem`
  (`Models/WebMapServiceCatalogItem.ts`): `load`, `duplicateLoadableStratum`,
  `forceLoadMetadata`;
* `TableColorMap` (`Table/TableColorMap.ts`): `colorMap`, `binColors`,
  `binMaximums` and their helper getters.

JavaScript values reaching the trait layer are modelled by the inductive
`JSValue`, with `undefined` an explicit constructor (absence of a property in
a stratum reads as `undefined`, exactly as in JavaScript).  Numbers are
modelled by `Rat`: none of the verified properties depends on floating-point
rounding, only on comparisons and on which branches run.
-/

/-- JavaScript values as seen by the trait layer.  `objVal` stands for any
other object (arrays, plain objects, ...), whose `typeof` is `"object"`. -/
inductive JSValue where
  | str (s : String)
  | num (n : Rat)
  | bool (b : Bool)
  | null
  | undefined
  | objVal
deriving DecidableEq

/-- JavaScript's `typeof` operator on a `JSValue`.  Note `typeof null`
is `"object"`. -/
def jsTypeof : JSValue → String
  | .str _ => "string"
  | .num _ => "number"
  | .bool _ => "boolean"
  | .null => "object"
  | .undefined => "undefined"
  | .objVal => "object"

/-- The `PrimitiveType` union from `Traits/primitiveTrait.ts`:
`"string" | "number" | "boolean"`. -/
inductive PrimitiveType where
  | string
  | number
  | boolean
deriving DecidableEq

/-- The name of a primitive type, as compared against `typeof jsonValue`. -/
def PrimitiveType.typeName : PrimitiveType → String
  | .string => "string"
  | .number => "number"
  | .boolean => "boolean"

/-- A stratum, as read by `PrimitiveTrait.getValue`: a mapping from trait id
to stored value.  A key that is absent reads as `undefined`, as in
JavaScript property access. -/
structure Stratum where
  entries : List (String × JSValue)
deriving DecidableEq

/-- Property read `stratum[id]`: the first entry for `id`, or `undefined`
when absent. -/
def Stratum.read (s : Stratum) (id : String) : JSValue :=
  match s.entries.find? (fun p => p.1 == id) with
  | some p => p.2
  | none => JSValue.undefined

/-- The part of `BaseModel` that `PrimitiveTrait.getValue` consumes:
`strataTopToBottom`, the model's strata in stack order, highest priority
first. -/
structure BaseModel where
  strataTopToBottom : List Stratum
deriving DecidableEq

/-- `PrimitiveTraitOptions` from `Traits/primitiveTrait.ts`: the declared
type and the optional `isNullable` flag.  The interface declares no default
value field. -/
structure PrimitiveTraitOptions where
  type : PrimitiveType
  isNullable : Option Bool
deriving DecidableEq

/-- `PrimitiveTrait`: id, declared primitive type, nullability. -/
structure PrimitiveTrait where
  id : String
  type : PrimitiveType
  isNullable : Bool
deriving DecidableEq

/-- The `PrimitiveTrait` constructor: `this.type = options.type;
this.isNullable = options.isNullable || false`. -/
def PrimitiveTrait.ofOptions (id : String) (options : PrimitiveTraitOptions) :
    PrimitiveTrait :=
  { id := id
    type := options.type
    isNullable := options.isNullable.getD false }

/-- The loop body of `PrimitiveTrait.getValue`: scan strata top to bottom
and return the first stored value that is not `undefined`. -/
def getValueLoop (id : String) : List Stratum → JSValue
  | [] => JSValue.undefined
  | s :: rest =>
    let value := s.read id
    if value ≠ JSValue.undefined then value else getValueLoop id rest

/-- `PrimitiveTrait.getValue(model)`: iterate `model.strataTopToBottom`,
return the first value for `this.id` that is not `undefined`; return
`undefined` when no stratum defines one. -/
def PrimitiveTrait.getValue (t : PrimitiveTrait) (model : BaseModel) : JSValue :=
  getValueLoop t.id model.strataTopToBottom

/-- `TerriaErrorSeverity` (only the two severities exist). -/
inductive TerriaErrorSeverity where
  | Error
  | Warning
deriving DecidableEq

/-- The error payload passed to `Result.error` by `PrimitiveTrait.fromJson`. -/
structure TraitError where
  title : String
  message : String
  severity : TerriaErrorSeverity
deriving DecidableEq

/-- `Result<T>` from `Core/Result`, restricted to the two ways
`PrimitiveTrait.fromJson` builds one: a plain value or an error. -/
inductive TraitResult where
  | ok (value : JSValue)
  | error (e : TraitError)
deriving DecidableEq

/-- Whether a `TraitResult` is the error case. -/
def TraitResult.isError : TraitResult → Bool
  | .ok _ => false
  | .error _ => true

/-- The error message interpolated by `PrimitiveTrait.fromJson`. -/
def fromJsonErrorMessage (id : String) (expected : String) (actual : String) :
    String :=
  "Property " ++ id ++ " is expected to be of type " ++ expected ++
    " but instead it is of type " ++ actual ++ "."

/-- `PrimitiveTrait.fromJson`: reject the value with a Warning-severity
"Invalid property" error when `typeof jsonValue !== this.type` and the value
is not `null` on a nullable trait; otherwise wrap the value unchanged. -/
def PrimitiveTrait.fromJson (t : PrimitiveTrait) (jsonValue : JSValue) :
    TraitResult :=
  if jsTypeof jsonValue ≠ t.type.typeName ∧
      (¬t.isNullable = true ∨ jsonValue ≠ JSValue.null) then
    TraitResult.error
      { title := "Invalid property"
        message := fromJsonErrorMessage t.id t.type.typeName (jsTypeof jsonValue)
        severity := TerriaErrorSeverity.Warning }
  else
    TraitResult.ok jsonValue

/-- `PrimitiveTrait.toJson(value)`: the identity. -/
def PrimitiveTrait.toJson (_t : PrimitiveTrait) (value : JSValue) : JSValue :=
  value

/-- The abstract `Trait` base class, as far as `isSameType` can observe it:
either a `PrimitiveTrait` or a trait of some other kind (array, object,
any, nested-model), for which `trait instanceof PrimitiveTrait` is false. -/
inductive Trait where
  | primitive (t : PrimitiveTrait)
  | otherKind (id : String)
deriving DecidableEq

/-- `PrimitiveTrait.isSameType(trait)`: `trait instanceof PrimitiveTrait &&
trait.type === this.type && trait.isNullable === this.isNullable`. -/
def PrimitiveTrait.isSameType (self : PrimitiveTrait) (trait : Trait) : Bool :=
  match trait with
  | .primitive t => t.type == self.type && t.isNullable == self.isNullable
  | .otherKind _ => false

/-!
## WebMapServiceCatalogItem: loadable strata

External collaborators of `GetCapabilitiesStratum.load` are passed in as
parameters: `proxyCatalogItemUrl` (URL proxying, outside the core) and
`network` (the `WebMapServiceCapabilities.fromUrl` fetch-and-parse step).
Operations record the external fetches they perform in a `List Effect`, so
that "performs no network load" is a provable statement.
-/

/-- An external effect performed by an operation: a network fetch of a URL. -/
inductive Effect where
  | fetch (url : String)
deriving DecidableEq

/-- A parsed `WebMapServiceCapabilities` document, abstracted to its
content. -/
structure WebMapServiceCapabilities where
  document : String
deriving DecidableEq

/-- The trait values of a `WebMapServiceCatalogItem` that the strata in this
file read through their `catalogItem` back-reference.  The back-reference is
modelled as this value. -/
structure WMSItemState where
  getCapabilitiesUrl : Option String
  getCapabilitiesCacheDuration : Option String
  isShowingDiff : Bool
deriving DecidableEq

/-- `i18next.t` resolves a translation key to a (nonempty) localized string;
modelled as the key itself. -/
def i18nextT (key : String) : String :=
  key

/-- `TerriaError`, restricted to the fields `GetCapabilitiesStratum.load`
sets. -/
structure TerriaError where
  title : String
  message : String
deriving DecidableEq

/-- `GetCapabilitiesStratum`: holds the owning catalog item and the
capabilities document it was built from. -/
structure GetCapabilitiesStratum where
  catalogItem : WMSItemState
  capabilities : WebMapServiceCapabilities
deriving DecidableEq

/-- `GetCapabilitiesStratum.duplicateLoadableStratum(model)`:
`new GetCapabilitiesStratum(model, this.capabilities)` — a plain
constructor call, so the effect log is empty. -/
def GetCapabilitiesStratum.duplicateLoadableStratum
    (self : GetCapabilitiesStratum) (model : WMSItemState) :
    GetCapabilitiesStratum × List Effect :=
  ({ catalogItem := model, capabilities := self.capabilities }, [])

/-- `GetCapabilitiesStratum.load(catalogItem)`: reject with a structured
`TerriaError` when `getCapabilitiesUrl` is `undefined`; otherwise fetch the
proxied URL and build the stratum from the parsed capabilities. -/
def GetCapabilitiesStratum.load
    (proxyCatalogItemUrl : WMSItemState → String → Option String → String)
    (network : String → WebMapServiceCapabilities)
    (catalogItem : WMSItemState) :
    Except TerriaError (GetCapabilitiesStratum × List Effect) :=
  match catalogItem.getCapabilitiesUrl with
  | none =>
    Except.error
      { title := i18nextT "models.webMapServiceCatalogItem.missingUrlTitle"
        message := i18nextT "models.webMapServiceCatalogItem.missingUrlMessage" }
  | some url =>
    let proxiedUrl :=
      proxyCatalogItemUrl catalogItem url catalogItem.getCapabilitiesCacheDuration
    Except.ok
      ({ catalogItem := catalogItem, capabilities := network proxiedUrl },
        [Effect.fetch proxiedUrl])

/-- `DiffStratum`: holds only the owning catalog item. -/
structure DiffStratum where
  catalogItem : WMSItemState
deriving DecidableEq

/-- `DiffStratum.duplicateLoadableStratum(model)`:
`new DiffStratum(model)` — a plain constructor call, empty effect log. -/
def DiffStratum.duplicateLoadableStratum
    (_self : DiffStratum) (model : WMSItemState) : DiffStratum × List Effect :=
  ({ catalogItem := model }, [])

/-- `DiffStratum.disableStyleSelector`: `this.catalogItem.isShowingDiff`. -/
def DiffStratum.disableStyleSelector (s : DiffStratum) : Bool :=
  s.catalogItem.isShowingDiff

/-- `DiffStratum.disableDateTimeSelector`: `this.catalogItem.isShowingDiff`. -/
def DiffStratum.disableDateTimeSelector (s : DiffStratum) : Bool :=
  s.catalogItem.isShowingDiff

/-- A stratum installed in a `WebMapServiceCatalogItem`'s strata map. -/
inductive InstalledStratum where
  | getCapabilities (s : GetCapabilitiesStratum)
  | diff (s : DiffStratum)
deriving DecidableEq

/-- `GetCapabilitiesMixin.getCapabilitiesStratumName`: the fixed name under
which the capabilities stratum is installed (the mixin is outside these
source files; per the spec each loadable stratum is "keyed by a fixed
name"). -/
def getCapabilitiesStratumName : String :=
  "getCapabilities"

/-- `DiffableMixin.diffStratumName`: the fixed name of the diff stratum. -/
def diffStratumName : String :=
  "diffStratum"

/-- JavaScript `Map.prototype.set`: replace in place when the key is
present (preserving insertion order), otherwise append. -/
def mapSet {α : Type} (m : List (String × α)) (k : String) (v : α) :
    List (String × α) :=
  if m.any (fun p => p.1 == k) then
    m.map (fun p => if p.1 == k then (k, v) else p)
  else
    m ++ [(k, v)]

/-- A `WebMapServiceCatalogItem`: its trait values plus its strata map. -/
structure WebMapServiceCatalogItem where
  state : WMSItemState
  strata : List (String × InstalledStratum)
deriving DecidableEq

/-- `WebMapServiceCatalogItem.forceLoadMetadata`: run
`GetCapabilitiesStratum.load(this)`; on success install the capabilities
stratum and a fresh `DiffStratum` under their fixed names; on rejection the
`then` callback never runs, so the error propagates and the strata map is
untouched. -/
def WebMapServiceCatalogItem.forceLoadMetadata
    (proxyCatalogItemUrl : WMSItemState → String → Option String → String)
    (network : String → WebMapServiceCapabilities)
    (item : WebMapServiceCatalogItem) :
    Except TerriaError Unit × WebMapServiceCatalogItem :=
  match GetCapabilitiesStratum.load proxyCatalogItemUrl network item.state with
  | Except.error e => (Except.error e, item)
  | Except.ok (stratum, _effects) =>
    let strata1 :=
      mapSet item.strata getCapabilitiesStratumName
        (InstalledStratum.getCapabilities stratum)
    let diffStratum : DiffStratum := { catalogItem := item.state }
    let strata2 :=
      mapSet strata1 diffStratumName (InstalledStratum.diff diffStratum)
    (Except.ok (), { item with strata := strata2 })

/-!
## TableColorMap

External collaborators are grouped into `D3Env`: the `d3-scale-chromatic`
scheme tables, Cesium's `Color.fromCssColorString` CSS parser,
`StandardCssColors.highContrast` and the `createColorForIdTransformer`
id-to-color function.  Theorems quantify over the environment, so they hold
for every behaviour of these collaborators.  A `none` result of an operation
that indexes into a missing scheme models the `TypeError` the JavaScript
would throw there.
-/

/-- `TableColumnType`, restricted to the constructors `TableColorMap`
dispatches on; `other` stands for every remaining column type (text, time,
longitude, ...). -/
inductive TableColumnType where
  | scalar
  | enum
  | region
  | other
deriving DecidableEq

/-- The `uniqueValues` summary of a `TableColumn` (only `values` is read). -/
structure UniqueValues where
  values : List String
deriving DecidableEq

/-- The `valuesAsNumbers` summary of a `TableColumn`: per-row numeric values
(`none` for a non-numeric row, JavaScript `null`) and the column minimum and
maximum (`none` when undefined). -/
structure ColumnValuesAsNumbers where
  values : List (Option Rat)
  minimum : Option Rat
  maximum : Option Rat
deriving DecidableEq

/-- The part of `TableColumn` that `TableColorMap` reads. -/
structure TableColumn where
  type : TableColumnType
  uniqueValues : UniqueValues
  valuesAsNumbers : ColumnValuesAsNumbers
deriving DecidableEq

/-- One entry of the `enumColors` trait: optional value and CSS color. -/
structure EnumColorTraits where
  value : Option String
  color : Option String
deriving DecidableEq

/-- The `{max, min}` record returned by `zScoreFilterValues`. -/
structure ZScoreFilterValues where
  max : Rat
  min : Rat
deriving DecidableEq

/-- The resolved values of `TableColorStyleTraits` that `TableColorMap`
reads.  `numberOfBins` is a bin count and is modelled as an integer. -/
structure TableColorStyleTraits where
  nullColor : Option String
  outlierColor : Option String
  regionColor : Option String
  binColors : Option (List String)
  binMaximums : Option (List Rat)
  numberOfBins : Int
  enumColors : Option (List EnumColorTraits)
  colorPalette : Option String
  zScoreFilterEnabled : Bool
  zScoreFilter : Option Rat
  rangeFilter : Rat
deriving DecidableEq

/-- A Cesium `Color`, abstracted to an opaque value. -/
structure CesiumColor where
  value : String
deriving DecidableEq

/-- `Color.TRANSPARENT`. -/
def CesiumColor.TRANSPARENT : CesiumColor :=
  { value := "TRANSPARENT" }

/-- `Color.AQUAMARINE`. -/
def CesiumColor.AQUAMARINE : CesiumColor :=
  { value := "AQUAMARINE" }

/-- A `d3-scale-chromatic` categorical scheme: either a one-dimensional
array of CSS colors, or a two-dimensional array indexed by bin count whose
entries may be absent. -/
inductive CategoricalScheme where
  | oneDim (colors : List String)
  | twoDim (byBins : List (Option (List String)))
deriving DecidableEq

/-- The scheme-shape dispatch at the end of `colorScaleCategorical`:
`typeof colorScaleScheme[0] === "string"` selects the whole one-dimensional
array (an empty array fails that test and falls through to the indexing
path); otherwise index by `numberOfBins`, falling back to the scheme's last
entry when that is not an array.  `none` means no array was obtained, so the
subsequent indexing in the source would fail. -/
def CategoricalScheme.resolve : CategoricalScheme → Nat → Option (List String)
  | .oneDim colors, _ =>
    if colors.isEmpty then none else some colors
  | .twoDim byBins, numberOfBins =>
    match (byBins.get? numberOfBins).join with
    | some colorScale => some colorScale
    | none => (byBins.get? (byBins.length - 1)).join

/-- The external collaborators of `TableColorMap`. -/
structure D3Env where
  fromCssColorString : String → Option CesiumColor
  interpolateScheme : String → Option (Rat → String)
  categoricalScheme : String → Option CategoricalScheme
  highContrast : List String
  getColorForId : String → String

/-- JavaScript truthiness of an optional string: defined and nonempty. -/
def strTruthy : Option String → Bool
  | some s => !s.isEmpty
  | none => false

/-- `getMin`: `reduce((a, b) => (b < a ? b : a), Infinity)`.  The `Infinity`
accumulator of the empty array is modelled as `none`; every consumer treats
it exactly as the source treats `Infinity` there (the strict comparisons it
feeds are false either way). -/
def getMin (array : List Rat) : Option Rat :=
  array.foldl
    (fun a b =>
      match a with
      | none => some b
      | some a0 => some (if b < a0 then b else a0))
    none

/-- `getMax`: `reduce((a, b) => (a < b ? b : a), -Infinity)`, empty array
modelled as `none`. -/
def getMax (array : List Rat) : Option Rat :=
  array.foldl
    (fun a b =>
      match a with
      | none => some b
      | some a0 => some (if a0 < b then b else a0))
    none

/-- `TableColorMap`: constructor arguments plus two abstract inputs for
collaborator data that lives outside this source file:
`regionRowsOracle` models `tableModel.activeTableStyle.regionColumn`
(per row, whether a valid region id is present; `none` when there is no
region column), and `zScoreOracle` models the result of the floating-point
statistics (row-group means, standard deviation) of `zScoreFilterValues`,
whose guards are kept faithful below. -/
structure TableColorMap where
  title : Option String
  colorColumn : Option TableColumn
  colorTraits : TableColorStyleTraits
  regionRowsOracle : Option (List Bool)
  zScoreOracle : Option ZScoreFilterValues

/-- `regionValues`: for a scalar color column with a region column, the
color column's numeric value for each row that has a valid region, `null`
elsewhere; `undefined` otherwise. -/
def TableColorMap.regionValues (m : TableColorMap) :
    Option (List (Option Rat)) :=
  match m.colorColumn, m.regionRowsOracle with
  | some colorColumn, some regionRows =>
    if colorColumn.type = TableColumnType.scalar then
      some (regionRows.mapIdx (fun rowIndex hasRegion =>
        if hasRegion then (colorColumn.valuesAsNumbers.values.get? rowIndex).join
        else none))
    else none
  | _, _ => none

/-- `validValues`: `regionValues ?? colorColumn?.valuesAsNumbers.values`,
with `null` entries filtered out. -/
def TableColorMap.validValues (m : TableColorMap) : Option (List Rat) :=
  let values : Option (List (Option Rat)) :=
    match m.regionValues with
    | some vs => some vs
    | none => m.colorColumn.map (fun c => c.valuesAsNumbers.values)
  values.map (fun vs => vs.filterMap id)

/-- `zScoreFilterValues`, with the source's guards (`colorColumn` present,
`validValues` present and nonempty, `zScoreFilter` trait defined); the
filtered `{max, min}` itself is floating-point statistics over external row
groups and is modelled by `zScoreOracle`. -/
def TableColorMap.zScoreFilterValues (m : TableColorMap) :
    Option ZScoreFilterValues :=
  match m.colorColumn, m.validValues with
  | some _, some validValues =>
    if validValues.length = 0 ∨ m.colorTraits.zScoreFilter.isNone then none
    else m.zScoreOracle
  | _, _ => none

/-- `minimumValue`: the z-score-filtered minimum when that filter applies,
else `getMin(validValues)` when `validValues` is defined. -/
def TableColorMap.minimumValue (m : TableColorMap) : Option Rat :=
  if m.zScoreFilterValues.isSome ∧ m.colorTraits.zScoreFilterEnabled = true then
    m.zScoreFilterValues.map ZScoreFilterValues.min
  else
    m.validValues.bind getMin

/-- `maximumValue`: the z-score-filtered maximum when that filter applies,
else `getMax(validValues)` when `validValues` is defined. -/
def TableColorMap.maximumValue (m : TableColorMap) : Option Rat :=
  if m.zScoreFilterValues.isSome ∧ m.colorTraits.zScoreFilterEnabled = true then
    m.zScoreFilterValues.map ZScoreFilterValues.max
  else
    m.validValues.bind getMax

/-- The diverging palettes listed in `isDiverging` (`undefined` counts,
because the default palette is diverging in the diverging case). -/
def divergingPalettes : List (Option String) :=
  [none, some "BrBG", some "PRGn", some "PiYG", some "PuOr", some "RdBu",
   some "RdGy", some "RdYlBu", some "RdYlGn", some "Spectral"]

/-- `isDiverging`: the range crosses zero and the palette is a diverging
one. -/
def TableColorMap.isDiverging (m : TableColorMap) : Bool :=
  decide (m.minimumValue.getD 0 < 0) &&
    decide (0 < m.maximumValue.getD 0) &&
    divergingPalettes.contains m.colorTraits.colorPalette

/-- `defaultColorPaletteName`: `Turbo` without a column, `HighContrast` for
enumerated columns, `PuOr`/`Reds` for scalar columns depending on
`isDiverging` (a `TableColumn`'s `valuesAsNumbers` is always defined, so
that conjunct of the source reduces to `isDiverging`), `Reds` otherwise. -/
def TableColorMap.defaultColorPaletteName (m : TableColorMap) : String :=
  match m.colorColumn with
  | none => "Turbo"
  | some colorColumn =>
    if colorColumn.type = TableColumnType.enum ∨
        colorColumn.type = TableColumnType.region then
      "HighContrast"
    else if colorColumn.type = TableColumnType.scalar then
      if m.isDiverging then "PuOr" else "Reds"
    else
      "Reds"

/-- `colorScaleContinuous`: resolve `interpolate${colorPalette}`, else
`interpolate${defaultColorPaletteName}`; `none` when neither export exists
(the returned value would be `undefined`). -/
def TableColorMap.colorScaleContinuous (env : D3Env) (m : TableColorMap) :
    Option (Rat → String) :=
  let colorScale :=
    match m.colorTraits.colorPalette with
    | some colorPalette => env.interpolateScheme colorPalette
    | none => none
  match colorScale with
  | some f => some f
  | none => env.interpolateScheme m.defaultColorPaletteName

/-- `colorScaleCategorical(numberOfBins)`: resolve `scheme${colorPalette}`
(with `HighContrast` a custom palette), falling back to the default palette
name, then pick the color list for `numberOfBins` via
`CategoricalScheme.resolve`. -/
def TableColorMap.colorScaleCategorical (env : D3Env) (m : TableColorMap)
    (numberOfBins : Nat) : Option (List String) :=
  let fromPalette : Option CategoricalScheme :=
    match m.colorTraits.colorPalette with
    | some colorPalette =>
      if colorPalette = "HighContrast" then
        some (CategoricalScheme.oneDim env.highContrast)
      else
        env.categoricalScheme colorPalette
    | none => none
  let colorScaleScheme : Option CategoricalScheme :=
    match fromPalette with
    | some s => some s
    | none =>
      if m.defaultColorPaletteName = "HighContrast" then
        some (CategoricalScheme.oneDim env.highContrast)
      else
        env.categoricalScheme m.defaultColorPaletteName
  colorScaleScheme.bind (fun scheme => scheme.resolve numberOfBins)

/-- `nullColor`: the parsed `nullColor` trait, `Color.TRANSPARENT` when the
trait is falsy or fails to parse. -/
def TableColorMap.nullColor (env : D3Env) (m : TableColorMap) : CesiumColor :=
  if strTruthy m.colorTraits.nullColor then
    (env.fromCssColorString (m.colorTraits.nullColor.getD "")).getD
      CesiumColor.TRANSPARENT
  else
    CesiumColor.TRANSPARENT

/-- `outlierColor`: the parsed `outlierColor` trait, `Color.AQUAMARINE`
when the trait is falsy or fails to parse. -/
def TableColorMap.outlierColor (env : D3Env) (m : TableColorMap) : CesiumColor :=
  if strTruthy m.colorTraits.outlierColor then
    (env.fromCssColorString (m.colorTraits.outlierColor.getD "")).getD
      CesiumColor.AQUAMARINE
  else
    CesiumColor.AQUAMARINE

/-- `regionColor`: `Color.fromCssColorString(colorTraits.regionColor)`. -/
def TableColorMap.regionColor (env : D3Env) (m : TableColorMap) :
    Option CesiumColor :=
  m.colorTraits.regionColor.bind env.fromCssColorString

/-- `binMaximums`: the `binMaximums` trait (extended by the dataset maximum
when the last bin does not reach it), or — when the trait is undefined —
`numberOfBins` evenly spaced maximums between the column minimum and
maximum.  The accumulating `next += step` of the source is exact here, so
iteration `i` pushes `min + step * (i + 1)`. -/
def TableColorMap.binMaximums (m : TableColorMap) : List Rat :=
  match m.colorColumn with
  | none => m.colorTraits.binMaximums.getD []
  | some colorColumn =>
    match m.colorTraits.binMaximums with
    | some binMaximums =>
      let maxVal := colorColumn.valuesAsNumbers.maximum
      if colorColumn.type = TableColumnType.scalar ∧ maxVal.isSome = true ∧
          (binMaximums.length = 0 ∨ binMaximums.getLast?.getD 0 < maxVal.getD 0)
        then
        binMaximums ++ [maxVal.getD 0]
      else
        binMaximums
    | none =>
      if m.colorTraits.numberOfBins = 0 then
        []
      else
        match colorColumn.valuesAsNumbers.minimum,
            colorColumn.valuesAsNumbers.maximum with
        | some min0, some max0 =>
          let numberOfBins : Int :=
            if (colorColumn.uniqueValues.values.length : Int) <
                m.colorTraits.numberOfBins then
              colorColumn.uniqueValues.values.length
            else
              m.colorTraits.numberOfBins
          let step : Rat := (max0 - min0) / (numberOfBins : Rat)
          (List.range (numberOfBins - 1).toNat).map
            (fun i => min0 + step * ((i : Rat) + 1)) ++ [max0]
        | _, _ => []

/-- `binColors`: one color per entry of `binMaximums`; index `i` comes from
the `binColors` trait when in range (`Color.TRANSPARENT` when the CSS string
does not parse), else from the categorical color scale at `i` modulo the
scale length (no fallback there, so a non-parsing scale entry stores an
undefined color).  `none` when the categorical scheme cannot be resolved. -/
def TableColorMap.binColors (env : D3Env) (m : TableColorMap) :
    Option (List (Option CesiumColor)) :=
  let numberOfBins := m.binMaximums.length
  let binColorsTrait := m.colorTraits.binColors.getD []
  (m.colorScaleCategorical env m.binMaximums.length).map (fun colorScale =>
    (List.range numberOfBins).map (fun i =>
      if i < binColorsTrait.length then
        some ((env.fromCssColorString (binColorsTrait.getD i "")).getD
          CesiumColor.TRANSPARENT)
      else
        (colorScale.get? (i % colorScale.length)).bind env.fromCssColorString))

/-- The default branch of `enumColors`: one entry per color of the
categorical scale for `uniqueValues.length` bins, pairing scale color `i`
with unique value `i` (which is absent when the scale is longer than the
unique values). -/
def TableColorMap.defaultEnumColors (env : D3Env) (m : TableColorMap) :
    Option (List EnumColorTraits) :=
  match m.colorColumn with
  | none => some []
  | some colorColumn =>
    let uniqueValues := colorColumn.uniqueValues.values
    (m.colorScaleCategorical env uniqueValues.length).map (fun colorScale =>
      colorScale.mapIdx (fun i color =>
        { value := uniqueValues.get? i, color := some color }))

/-- `enumColors`: the `enumColors` trait when defined and nonempty, else one
generated entry per unique value. -/
def TableColorMap.enumColors (env : D3Env) (m : TableColorMap) :
    Option (List EnumColorTraits) :=
  match m.colorTraits.enumColors with
  | some traitColors =>
    if traitColors.length ≠ 0 then some traitColors
    else m.defaultEnumColors env
  | none => m.defaultEnumColors env

/-- One bin of a `DiscreteColorMap`. -/
structure DiscreteBin where
  color : Option CesiumColor
  maximum : Option Rat
  includeMinimumInThisBin : Bool

/-- One entry of an `EnumColorMap`. -/
structure EnumBin where
  value : String
  color : Option CesiumColor

/-- The `ColorMap` class hierarchy, as constructed by
`TableColorMap.colorMap`: `DiscreteColorMap`, `ContinuousColorMap`,
`EnumColorMap` or `ConstantColorMap`, each with the constructor arguments
the source passes. -/
inductive ColorMap where
  | discrete (bins : List DiscreteBin) (nullColor : CesiumColor)
  | continuous (colorScale : Option (Rat → String)) (minValue : Rat)
      (maxValue : Rat) (nullColor : CesiumColor) (outlierColor : CesiumColor)
      (isDiverging : Bool)
  | enumMap (enumColors : List EnumBin) (nullColor : CesiumColor)
  | constant (color : Option CesiumColor) (title : Option String)
      (nullColor : Option CesiumColor)

/-- `DEFAULT_COLOR`. -/
def DEFAULT_COLOR : String :=
  "yellow"

/-- The candidate color tried by the fallback branch of `colorMap`, in
source order: `regionColor` for region columns, else the parsed `nullColor`
trait, else the parsed first `binColors` trait entry, else a color generated
from the title; `none` when no branch yields a color. -/
def TableColorMap.fallbackColorCandidate (env : D3Env) (m : TableColorMap) :
    Option CesiumColor :=
  if m.colorColumn.map TableColumn.type = some TableColumnType.region ∧
      (m.regionColor env).isSome = true then
    m.regionColor env
  else if strTruthy m.colorTraits.nullColor then
    env.fromCssColorString (m.colorTraits.nullColor.getD "")
  else if m.colorTraits.binColors.isSome = true ∧
      (m.colorTraits.binColors.getD []).length > 0 then
    env.fromCssColorString ((m.colorTraits.binColors.getD []).getD 0 "")
  else if strTruthy m.title then
    env.fromCssColorString (env.getColorForId (m.title.getD ""))
  else
    none

/-- The `ConstantColorMap` built at the end of `colorMap` when no other map
applies: the candidate color, or the parsed `DEFAULT_COLOR` when there is
none; its `nullColor` is set only for region columns. -/
def TableColorMap.constantFallback (env : D3Env) (m : TableColorMap) :
    ColorMap :=
  let color2 : Option CesiumColor :=
    match m.fallbackColorCandidate env with
    | some c => some c
    | none => env.fromCssColorString DEFAULT_COLOR
  ColorMap.constant color2 m.title
    (if m.colorColumn.map TableColumn.type = some TableColumnType.region then
      some (m.nullColor env)
    else
      none)

/-- `TableColorMap.colorMap`: `DiscreteColorMap` for a scalar column with
bins, `ContinuousColorMap` for a scalar column with a valid range,
single-entry `EnumColorMap` for a scalar column with one unique value,
`EnumColorMap` for an enumerated column with enough enum colors, and the
constant fallback otherwise.  `none` models the `TypeError` thrown when a
needed color scheme cannot be resolved. -/
def TableColorMap.colorMap (env : D3Env) (m : TableColorMap) :
    Option ColorMap :=
  let fallback := some (m.constantFallback env)
  match m.colorColumn with
  | some colorColumn =>
    if colorColumn.type = TableColumnType.scalar then
      if m.binMaximums.length > 0 then
        (m.binColors env).map (fun binColors =>
          ColorMap.discrete
            (binColors.mapIdx (fun i color =>
              { color := color
                maximum := m.binMaximums.get? i
                includeMinimumInThisBin := false }))
            (m.nullColor env))
      else if m.minimumValue.isSome = true ∧ m.maximumValue.isSome = true ∧
          m.minimumValue.getD 0 < m.maximumValue.getD 0 then
        some (ColorMap.continuous (m.colorScaleContinuous env)
          (m.minimumValue.getD 0) (m.maximumValue.getD 0)
          (m.nullColor env) (m.outlierColor env) m.isDiverging)
      else if colorColumn.uniqueValues.values.length = 1 then
        (m.colorScaleContinuous env).map (fun colorScale =>
          ColorMap.enumMap
            [{ value := colorColumn.uniqueValues.values.getD 0 ""
               color := env.fromCssColorString (colorScale 1) }]
            (m.nullColor env))
      else
        fallback
    else if colorColumn.type = TableColumnType.enum ∨
        colorColumn.type = TableColumnType.region then
      match m.enumColors env with
      | none => none
      | some enumColors0 =>
        if colorColumn.uniqueValues.values.length ≤ enumColors0.length then
          some (ColorMap.enumMap
            (enumColors0.filterMap (fun e =>
              match e.value, e.color with
              | some value, some color =>
                some { value := value
                       color :=
                         if colorColumn.type ≠ TableColumnType.region then
                           some ((env.fromCssColorString color).getD
                             CesiumColor.TRANSPARENT)
                         else
                           m.regionColor env }
              | _, _ => none))
            (m.nullColor env))
        else
          fallback
    else
      fallback
  | none => fallback

/-- Validity of the external color environment: every categorical scheme
actually provided resolves to a color list for every bin count, the schemes
and interpolators for the default palette names selected when a color
column is present — `PuOr` and `Reds`; `HighContrast` is served from
`StandardCssColors`, and `Turbo` is the default only when there is no color
column, in which case no categorical scheme is consulted — exist, and the
`HighContrast` color list is nonempty.  All of this holds of the real
`d3-scale-chromatic` exports (`schemePuOr`, `schemeReds`,
`interpolatePuOr`, `interpolateReds`) and of
`StandardCssColors.highContrast`; the source notes it is "**very**
important that these values are valid color palettes" because Terria
crashes otherwise. -/
def D3EnvOk (env : D3Env) : Prop :=
  (∀ name s n, env.categoricalScheme name = some s →
    ∃ l, s.resolve n = some l)
  ∧ (∀ name ∈ ["PuOr", "Reds"], (env.categoricalScheme name).isSome = true)
  ∧ (∀ name ∈ ["PuOr", "Reds"], (env.interpolateScheme name).isSome = true)
  ∧ env.highContrast ≠ []

/-- The condition under which `colorMap` reaches its constant fallback: the
scalar branch falls through its three sub-branches, the enumerated branch
fails its enough-enum-colors check, or the column is of another type or
absent. -/
def TableColorMap.fallbackReached (env : D3Env) (m : TableColorMap) : Prop :=
  match m.colorColumn with
  | some colorColumn =>
    if colorColumn.type = TableColumnType.scalar then
      m.binMaximums.length = 0 ∧
        ¬(m.minimumValue.isSome = true ∧ m.maximumValue.isSome = true ∧
          m.minimumValue.getD 0 < m.maximumValue.getD 0) ∧
        colorColumn.uniqueValues.values.length ≠ 1
    else if colorColumn.type = TableColumnType.enum ∨
        colorColumn.type = TableColumnType.region then
      ∃ ec, m.enumColors env = some ec ∧
        colorColumn.uniqueValues.values.length > ec.length
    else
      True
  | none => True

/-- A concrete collaborator environment used by the witnesses: every CSS
string parses, every palette name resolves to a fixed two-color scheme and
to a constant interpolator. -/
def sampleEnv : D3Env :=
  { fromCssColorString := fun s => some { value := s }
    interpolateScheme := fun _ => some (fun _ => "ramp")
    categoricalScheme := fun _ => some (CategoricalScheme.oneDim ["red", "green"])
    highContrast := ["black", "white"]
    getColorForId := fun id => id }

/-- A concrete `TableColorMap` over a scalar column with a three-entry
`binMaximums` trait and one explicit bin color, used by the binColors
witness. -/
def sampleBinnedColorMap : TableColorMap :=
  { title := some "site"
    colorColumn := some
      { type := TableColumnType.scalar
        uniqueValues := { values := ["1", "2", "3", "4"] }
        valuesAsNumbers :=
          { values := [some 1, some 2, some 3], minimum := some 1, maximum := some 3 } }
    colorTraits :=
      { nullColor := none, outlierColor := none, regionColor := none
        binColors := some ["#ff0000"], binMaximums := some [1, 2, 3]
        numberOfBins := 7, enumColors := none, colorPalette := none
        zScoreFilterEnabled := false, zScoreFilter := none, rangeFilter := 3 / 10 }
    regionRowsOracle := none
    zScoreOracle := none }

/-- A concrete `TableColorMap` with no color column and no configured
colors, used by the colorMap-fallback witness. -/
def sampleBareColorMap : TableColorMap :=
  { title := none
    colorColumn := none
    colorTraits :=
      { nullColor := none, outlierColor := none, regionColor := none
        binColors := none, binMaximums := none
        numberOfBins := 7, enumColors := none, colorPalette := none
        zScoreFilterEnabled := false, zScoreFilter := none, rangeFilter := 3 / 10 }
    regionRowsOracle := none
    zScoreOracle := none }

/-!
## Theorems
-/

/-- C1: `PrimitiveTrait.getValue` examines the strata strictly top to bottom
and returns the value stored by the first stratum whose value for the
trait's id is not `undefined`; the strata below that stratum (here `post`,
universally quantified and absent from the right-hand side) have no effect
on the result. -/
theorem getValue_first_defined_wins (t : PrimitiveTrait)
    (pre post : List Stratum) (s : Stratum)
    (hpre : ∀ s' ∈ pre, s'.read t.id = JSValue.undefined)
    (hs : s.read t.id ≠ JSValue.undefined) :
    t.getValue { strataTopToBottom := pre ++ s :: post } = s.read t.id := by
  unfold PrimitiveTrait.getValue
  induction pre with
  | nil => simp [getValueLoop, hs]
  | cons a rest ih =>
    have ha : a.read t.id = JSValue.undefined := hpre a (by simp)
    simpa [getValueLoop, ha] using ih (fun s' h => hpre s' (by simp [h]))

/-- C1 witness: with a top stratum not defining the trait, a middle stratum
storing "A" and a bottom stratum storing "B", resolution returns "A". -/
theorem getValue_first_defined_wins_witness :
    (PrimitiveTrait.mk "opacity" PrimitiveType.string false).getValue
      { strataTopToBottom :=
          [{ entries := [] },
           { entries := [("opacity", JSValue.str "A")] },
           { entries := [("opacity", JSValue.str "B")] }] } =
      Stratum.read { entries := [("opacity", JSValue.str "A")] } "opacity" :=
  getValue_first_defined_wins (PrimitiveTrait.mk "opacity" PrimitiveType.string false)
    [{ entries := [] }] [{ entries := [("opacity", JSValue.str "B")] }]
    { entries := [("opacity", JSValue.str "A")] }
    (by decide) (by decide)

/-- C2: when no stratum stores a value other than `undefined` for the
trait's id, `PrimitiveTrait.getValue` returns `undefined`.
`PrimitiveTraitOptions` declares no default-value field, so no primitive
trait declares a static default and `undefined` is the claim's fallback. -/
theorem getValue_no_defined_value (t : PrimitiveTrait) (model : BaseModel)
    (h : ∀ s ∈ model.strataTopToBottom, s.read t.id = JSValue.undefined) :
    t.getValue model = JSValue.undefined := by
  obtain ⟨l⟩ := model
  unfold PrimitiveTrait.getValue
  induction l with
  | nil => rfl
  | cons a rest ih =>
    have ha : a.read t.id = JSValue.undefined := h a (by simp)
    simpa [getValueLoop, ha] using ih (fun s hs => h s (by simp [hs]))

/-- C2 witness: a model with one empty stratum and one stratum defining a
different trait resolves to `undefined`. -/
theorem getValue_no_defined_value_witness :
    (PrimitiveTrait.mk "opacity" PrimitiveType.number false).getValue
      { strataTopToBottom :=
          [{ entries := [] }, { entries := [("show", JSValue.bool true)] }] } =
      JSValue.undefined :=
  getValue_no_defined_value (PrimitiveTrait.mk "opacity" PrimitiveType.number false)
    { strataTopToBottom :=
        [{ entries := [] }, { entries := [("show", JSValue.bool true)] }] }
    (by decide)

/-- C3: `PrimitiveTrait.fromJson` returns a Warning-severity "Invalid
property" error whose message carries the trait id, the declared type and
the actual `typeof`, whenever the value's `typeof` differs from the declared
type and the value is not `null` on a nullable trait; a value of the
declared type is returned unchanged as a success. -/
theorem fromJson_type_check (t : PrimitiveTrait) (v : JSValue) :
    (jsTypeof v ≠ t.type.typeName →
      ¬(t.isNullable = true ∧ v = JSValue.null) →
      t.fromJson v = TraitResult.error
        { title := "Invalid property"
          message := fromJsonErrorMessage t.id t.type.typeName (jsTypeof v)
          severity := TerriaErrorSeverity.Warning })
    ∧ (jsTypeof v = t.type.typeName → t.fromJson v = TraitResult.ok v) := by
  constructor
  · intro hty hnull
    unfold PrimitiveTrait.fromJson
    rw [if_pos]
    refine ⟨hty, ?_⟩
    by_cases hn : t.isNullable = true
    · exact Or.inr (fun hv => hnull ⟨hn, hv⟩)
    · exact Or.inl hn
  · intro hty
    unfold PrimitiveTrait.fromJson
    rw [if_neg]
    intro hcond
    exact hcond.1 hty

/-- C3 witness: a number trait rejects a string value with the typed Warning
error and accepts a number unchanged. -/
theorem fromJson_type_check_witness :
    (PrimitiveTrait.mk "opacity" PrimitiveType.number false).fromJson
        (JSValue.str "x") =
      TraitResult.error
        { title := "Invalid property"
          message := fromJsonErrorMessage "opacity" "number" "string"
          severity := TerriaErrorSeverity.Warning }
    ∧ (PrimitiveTrait.mk "opacity" PrimitiveType.number false).fromJson
        (JSValue.num 1) = TraitResult.ok (JSValue.num 1) :=
  ⟨(fromJson_type_check (PrimitiveTrait.mk "opacity" PrimitiveType.number false)
      (JSValue.str "x")).1 (by decide) (by decide),
   (fromJson_type_check (PrimitiveTrait.mk "opacity" PrimitiveType.number false)
      (JSValue.num 1)).2 (by decide)⟩

/-- A declared primitive type is never named "object", so `null` (whose
`typeof` is "object") never matches it. -/
theorem typeName_ne_object (ty : PrimitiveType) : ty.typeName ≠ "object" := by
  cases ty <;> decide

/-- C4: a nullable trait accepts `null` in `fromJson` and a stratum storing
`null` resolves to `null` (stopping resolution at that stratum), while a
stratum reading `undefined` is skipped and resolution continues with the
lower strata; a non-nullable trait rejects `null` with an error. -/
theorem null_vs_undefined (t : PrimitiveTrait) (s : Stratum)
    (rest : List Stratum) :
    (t.isNullable = true → t.fromJson JSValue.null = TraitResult.ok JSValue.null)
    ∧ (t.isNullable = false → (t.fromJson JSValue.null).isError = true)
    ∧ (s.read t.id = JSValue.null →
        t.getValue { strataTopToBottom := s :: rest } = JSValue.null)
    ∧ (s.read t.id = JSValue.undefined →
        t.getValue { strataTopToBottom := s :: rest } =
          t.getValue { strataTopToBottom := rest }) := by
  refine ⟨?_, ?_, ?_, ?_⟩
  · intro hn
    unfold PrimitiveTrait.fromJson
    rw [if_neg]
    intro hcond
    rcases hcond.2 with h | h
    · exact h hn
    · exact h rfl
  · intro hn
    unfold PrimitiveTrait.fromJson
    rw [if_pos]
    · rfl
    · exact ⟨Ne.symm (typeName_ne_object t.type), Or.inl (by simp [hn])⟩
  · intro hv
    unfold PrimitiveTrait.getValue
    simp [getValueLoop, hv]
  · intro hv
    unfold PrimitiveTrait.getValue
    simp [getValueLoop, hv]

/-- C4 witness: a nullable string trait accepts `null`; a non-nullable one
rejects it; a stratum storing `null` resolves to `null` over a lower
stratum storing "B"; a stratum without the trait defers to that lower
stratum. -/
theorem null_vs_undefined_witness :
    ((PrimitiveTrait.mk "legendUrl" PrimitiveType.string true).fromJson
        JSValue.null = TraitResult.ok JSValue.null)
    ∧ (((PrimitiveTrait.mk "opacity" PrimitiveType.string false).fromJson
        JSValue.null).isError = true)
    ∧ ((PrimitiveTrait.mk "legendUrl" PrimitiveType.string true).getValue
        { strataTopToBottom :=
            [{ entries := [("legendUrl", JSValue.null)] },
             { entries := [("legendUrl", JSValue.str "B")] }] } = JSValue.null)
    ∧ ((PrimitiveTrait.mk "legendUrl" PrimitiveType.string true).getValue
        { strataTopToBottom :=
            [{ entries := [] },
             { entries := [("legendUrl", JSValue.str "B")] }] } =
        (PrimitiveTrait.mk "legendUrl" PrimitiveType.string true).getValue
          { strataTopToBottom := [{ entries := [("legendUrl", JSValue.str "B")] }] }) :=
  ⟨(null_vs_undefined (PrimitiveTrait.mk "legendUrl" PrimitiveType.string true)
      { entries := [] } []).1 rfl,
   (null_vs_undefined (PrimitiveTrait.mk "opacity" PrimitiveType.string false)
      { entries := [] } []).2.1 rfl,
   (null_vs_undefined (PrimitiveTrait.mk "legendUrl" PrimitiveType.string true)
      { entries := [("legendUrl", JSValue.null)] }
      [{ entries := [("legendUrl", JSValue.str "B")] }]).2.2.1 (by decide),
   (null_vs_undefined (PrimitiveTrait.mk "legendUrl" PrimitiveType.string true)
      { entries := [] }
      [{ entries := [("legendUrl", JSValue.str "B")] }]).2.2.2 (by decide)⟩

/-- C5: `isSameType` holds exactly when the other trait is also a primitive
trait with the same declared type and the same nullability — it ignores the
trait ids (identity), and it is reflexive and symmetric on primitive
traits. -/
theorem isSameType_structural (t1 : PrimitiveTrait) (tr : Trait) :
    (t1.isSameType tr = true ↔
      ∃ t2 : PrimitiveTrait, tr = Trait.primitive t2 ∧ t2.type = t1.type ∧
        t2.isNullable = t1.isNullable)
    ∧ t1.isSameType (Trait.primitive t1) = true
    ∧ ∀ t2 : PrimitiveTrait,
        t1.isSameType (Trait.primitive t2) = t2.isSameType (Trait.primitive t1) := by
  refine ⟨?_, ?_, ?_⟩
  · cases tr with
    | primitive t2 => simp [PrimitiveTrait.isSameType]
    | otherKind i => simp [PrimitiveTrait.isSameType]
  · simp [PrimitiveTrait.isSameType]
  · intro t2
    simp only [PrimitiveTrait.isSameType]
    rcases t1 with ⟨id1, ty1, n1⟩
    rcases t2 with ⟨id2, ty2, n2⟩
    cases ty1 <;> cases ty2 <;> cases n1 <;> cases n2 <;> rfl

/-- C5 witness: two primitive traits with different ids but equal type and
nullability are the same type; a primitive and a non-primitive trait are
not. -/
theorem isSameType_structural_witness :
    ((PrimitiveTrait.mk "a" PrimitiveType.number true).isSameType
        (Trait.primitive (PrimitiveTrait.mk "b" PrimitiveType.number true)) = true ↔
      ∃ t2 : PrimitiveTrait,
        Trait.primitive (PrimitiveTrait.mk "b" PrimitiveType.number true) =
            Trait.primitive t2 ∧
          t2.type = PrimitiveType.number ∧ t2.isNullable = true) ∧
    (PrimitiveTrait.mk "a" PrimitiveType.number true).isSameType
        (Trait.primitive (PrimitiveTrait.mk "a" PrimitiveType.number true)) = true :=
  ⟨(isSameType_structural (PrimitiveTrait.mk "a" PrimitiveType.number true)
      (Trait.primitive (PrimitiveTrait.mk "b" PrimitiveType.number true))).1,
   (isSameType_structural (PrimitiveTrait.mk "a" PrimitiveType.number true)
      (Trait.primitive (PrimitiveTrait.mk "b" PrimitiveType.number true))).2.1⟩

/-- C6: `toJson` followed by `fromJson` round-trips every value that
validates against the trait (matching `typeof`, or `null` on a nullable
trait) to a success holding exactly the original value. -/
theorem toJson_fromJson_roundtrip (t : PrimitiveTrait) (v : JSValue)
    (h : jsTypeof v = t.type.typeName ∨ (v = JSValue.null ∧ t.isNullable = true)) :
    t.fromJson (t.toJson v) = TraitResult.ok v := by
  unfold PrimitiveTrait.toJson PrimitiveTrait.fromJson
  rw [if_neg]
  intro hcond
  rcases h with h | ⟨hv, hn⟩
  · exact hcond.1 h
  · rcases hcond.2 with h2 | h2
    · exact h2 hn
    · exact h2 hv

/-- C6 witness: a string round-trips through a string trait and `null`
round-trips through a nullable trait. -/
theorem toJson_fromJson_roundtrip_witness :
    (PrimitiveTrait.mk "layers" PrimitiveType.string false).fromJson
        ((PrimitiveTrait.mk "layers" PrimitiveType.string false).toJson
          (JSValue.str "A")) = TraitResult.ok (JSValue.str "A")
    ∧ (PrimitiveTrait.mk "legendUrl" PrimitiveType.string true).fromJson
        ((PrimitiveTrait.mk "legendUrl" PrimitiveType.string true).toJson
          JSValue.null) = TraitResult.ok JSValue.null :=
  ⟨toJson_fromJson_roundtrip (PrimitiveTrait.mk "layers" PrimitiveType.string false)
      (JSValue.str "A") (Or.inl rfl),
   toJson_fromJson_roundtrip (PrimitiveTrait.mk "legendUrl" PrimitiveType.string true)
      JSValue.null (Or.inr ⟨rfl, rfl⟩)⟩

/-- C7: `duplicateLoadableStratum` rebinds the stratum to the new owning
model while keeping its content — the very same capabilities document for
`GetCapabilitiesStratum`, and for `DiffStratum` derived values equal to the
original's whenever the new owner carries the original owner's trait values
— and performs no external fetch (empty effect log); the embedding is pure,
so the original stratum and its owner are untouched. -/
theorem duplicateLoadableStratum_spec (g : GetCapabilitiesStratum)
    (d : DiffStratum) (newOwner : WMSItemState) :
    ((g.duplicateLoadableStratum newOwner).1.catalogItem = newOwner
      ∧ (g.duplicateLoadableStratum newOwner).1.capabilities = g.capabilities
      ∧ (g.duplicateLoadableStratum newOwner).2 = [])
    ∧ ((d.duplicateLoadableStratum newOwner).1.catalogItem = newOwner
      ∧ (d.duplicateLoadableStratum newOwner).2 = []
      ∧ (newOwner.isShowingDiff = d.catalogItem.isShowingDiff →
          (d.duplicateLoadableStratum newOwner).1.disableStyleSelector =
              d.disableStyleSelector
            ∧ (d.duplicateLoadableStratum newOwner).1.disableDateTimeSelector =
              d.disableDateTimeSelector)) := by
  refine ⟨⟨rfl, rfl, rfl⟩, rfl, rfl, ?_⟩
  intro h
  constructor
  · simpa [DiffStratum.duplicateLoadableStratum,
      DiffStratum.disableStyleSelector] using h
  · simpa [DiffStratum.duplicateLoadableStratum,
      DiffStratum.disableDateTimeSelector] using h

/-- C7 witness: duplicating concrete strata onto a new owner preserves the
capabilities document and the diff stratum's derived values, with an empty
effect log. -/
theorem duplicateLoadableStratum_spec_witness :
    (((GetCapabilitiesStratum.mk
          { getCapabilitiesUrl := some "http://a", getCapabilitiesCacheDuration := none,
            isShowingDiff := false }
          { document := "caps" }).duplicateLoadableStratum
        { getCapabilitiesUrl := some "http://b", getCapabilitiesCacheDuration := none,
          isShowingDiff := false }).1.capabilities = { document := "caps" })
    ∧ (((DiffStratum.mk
          { getCapabilitiesUrl := some "http://a", getCapabilitiesCacheDuration := none,
            isShowingDiff := false }).duplicateLoadableStratum
        { getCapabilitiesUrl := some "http://b", getCapabilitiesCacheDuration := none,
          isShowingDiff := false }).1.disableStyleSelector =
        (DiffStratum.mk
          { getCapabilitiesUrl := some "http://a", getCapabilitiesCacheDuration := none,
            isShowingDiff := false }).disableStyleSelector) :=
  ⟨(duplicateLoadableStratum_spec
      (GetCapabilitiesStratum.mk
        { getCapabilitiesUrl := some "http://a", getCapabilitiesCacheDuration := none,
          isShowingDiff := false }
        { document := "caps" })
      (DiffStratum.mk
        { getCapabilitiesUrl := some "http://a", getCapabilitiesCacheDuration := none,
          isShowingDiff := false })
      { getCapabilitiesUrl := some "http://b", getCapabilitiesCacheDuration := none,
        isShowingDiff := false }).1.2.1,
   ((duplicateLoadableStratum_spec
      (GetCapabilitiesStratum.mk
        { getCapabilitiesUrl := some "http://a", getCapabilitiesCacheDuration := none,
          isShowingDiff := false }
        { document := "caps" })
      (DiffStratum.mk
        { getCapabilitiesUrl := some "http://a", getCapabilitiesCacheDuration := none,
          isShowingDiff := false })
      { getCapabilitiesUrl := some "http://b", getCapabilitiesCacheDuration := none,
        isShowingDiff := false }).2.2.2 rfl).1⟩

/-- C8: with an undefined `getCapabilitiesUrl`, `GetCapabilitiesStratum.load`
rejects with a structured `TerriaError` whose title and message are both
set, and `forceLoadMetadata` propagates exactly that error while leaving the
whole catalog item — in particular its strata map — unchanged. -/
theorem load_missing_url_rejects
    (proxyCatalogItemUrl : WMSItemState → String → Option String → String)
    (network : String → WebMapServiceCapabilities)
    (item : WebMapServiceCatalogItem)
    (h : item.state.getCapabilitiesUrl = none) :
    GetCapabilitiesStratum.load proxyCatalogItemUrl network item.state =
        Except.error
          { title := i18nextT "models.webMapServiceCatalogItem.missingUrlTitle"
            message := i18nextT "models.webMapServiceCatalogItem.missingUrlMessage" }
      ∧ i18nextT "models.webMapServiceCatalogItem.missingUrlTitle" ≠ ""
      ∧ i18nextT "models.webMapServiceCatalogItem.missingUrlMessage" ≠ ""
      ∧ item.forceLoadMetadata proxyCatalogItemUrl network =
          (Except.error
            { title := i18nextT "models.webMapServiceCatalogItem.missingUrlTitle"
              message := i18nextT "models.webMapServiceCatalogItem.missingUrlMessage" },
            item) := by
  have hload : GetCapabilitiesStratum.load proxyCatalogItemUrl network item.state =
      Except.error
        { title := i18nextT "models.webMapServiceCatalogItem.missingUrlTitle"
          message := i18nextT "models.webMapServiceCatalogItem.missingUrlMessage" } := by
    unfold GetCapabilitiesStratum.load
    rw [h]
  refine ⟨hload, by decide, by decide, ?_⟩
  unfold WebMapServiceCatalogItem.forceLoadMetadata
  rw [hload]

/-- C8 witness: a concrete catalog item with no `getCapabilitiesUrl` and a
non-empty strata map keeps its strata and receives the structured error. -/
theorem load_missing_url_rejects_witness :
    (WebMapServiceCatalogItem.mk
        { getCapabilitiesUrl := none, getCapabilitiesCacheDuration := none,
          isShowingDiff := false }
        [("user", InstalledStratum.diff (DiffStratum.mk
          { getCapabilitiesUrl := none, getCapabilitiesCacheDuration := none,
            isShowingDiff := false }))]).forceLoadMetadata
        (fun _ url _ => url) (fun url => { document := url }) =
      (Except.error
        { title := i18nextT "models.webMapServiceCatalogItem.missingUrlTitle"
          message := i18nextT "models.webMapServiceCatalogItem.missingUrlMessage" },
       WebMapServiceCatalogItem.mk
        { getCapabilitiesUrl := none, getCapabilitiesCacheDuration := none,
          isShowingDiff := false }
        [("user", InstalledStratum.diff (DiffStratum.mk
          { getCapabilitiesUrl := none, getCapabilitiesCacheDuration := none,
            isShowingDiff := false }))]) :=
  (load_missing_url_rejects (fun _ url _ => url) (fun url => { document := url })
    (WebMapServiceCatalogItem.mk
      { getCapabilitiesUrl := none, getCapabilitiesCacheDuration := none,
        isShowingDiff := false }
      [("user", InstalledStratum.diff (DiffStratum.mk
        { getCapabilitiesUrl := none, getCapabilitiesCacheDuration := none,
          isShowingDiff := false }))])
    rfl).2.2.2

/-- When a color column is present, `defaultColorPaletteName` is
`HighContrast`, `PuOr` or `Reds` — never the interpolate-only `Turbo`. -/
theorem defaultColorPaletteName_cases_some (m : TableColorMap)
    (c : TableColumn) (hc : m.colorColumn = some c) :
    m.defaultColorPaletteName = "HighContrast" ∨
      m.defaultColorPaletteName = "PuOr" ∨
      m.defaultColorPaletteName = "Reds" := by
  unfold TableColorMap.defaultColorPaletteName
  rw [hc]
  dsimp only
  obtain ⟨ty, u, v⟩ := c
  by_cases hdiv : m.isDiverging = true <;> cases ty <;> simp [hdiv]

/-- With a valid environment, `colorScaleCategorical` always resolves when a
color column is present (only then can a default scheme be consulted). -/
theorem colorScaleCategorical_total (env : D3Env) (m : TableColorMap)
    (henv : D3EnvOk env) (c : TableColumn) (hc : m.colorColumn = some c)
    (n : Nat) :
    ∃ l, m.colorScaleCategorical env n = some l := by
  obtain ⟨hres, hdefaults, _, hhc⟩ := henv
  have hhc2 : ∃ l, (CategoricalScheme.oneDim env.highContrast).resolve n = some l := by
    refine ⟨env.highContrast, ?_⟩
    simp [CategoricalScheme.resolve, List.isEmpty_iff, hhc]
  have hdef : ∃ l,
      ((if m.defaultColorPaletteName = "HighContrast" then
          some (CategoricalScheme.oneDim env.highContrast)
        else env.categoricalScheme m.defaultColorPaletteName).bind
        (fun scheme => scheme.resolve n)) = some l := by
    by_cases hd : m.defaultColorPaletteName = "HighContrast"
    · rw [if_pos hd]
      simpa using hhc2
    · rw [if_neg hd]
      have hmem : (env.categoricalScheme m.defaultColorPaletteName).isSome = true := by
        rcases defaultColorPaletteName_cases_some m c hc with h | h | h
        · exact absurd h hd
        · rw [h]; exact hdefaults "PuOr" (by simp)
        · rw [h]; exact hdefaults "Reds" (by simp)
      obtain ⟨s, hs⟩ := Option.isSome_iff_exists.mp hmem
      rw [hs]
      simpa using hres _ s n hs
  unfold TableColorMap.colorScaleCategorical
  cases hpal : m.colorTraits.colorPalette with
  | none =>
    dsimp only
    simpa using hdef
  | some palette =>
    by_cases hp : palette = "HighContrast"
    · dsimp only
      rw [if_pos hp]
      simpa using hhc2
    · dsimp only
      rw [if_neg hp]
      cases hsch : env.categoricalScheme palette with
      | none =>
        dsimp only
        simpa using hdef
      | some s =>
        dsimp only
        simpa using hres palette s n hsch

/-- For a scalar color column, the default palette is `PuOr` or `Reds`. -/
theorem defaultColorPaletteName_scalar (m : TableColorMap) (c : TableColumn)
    (hc : m.colorColumn = some c) (hs : c.type = TableColumnType.scalar) :
    m.defaultColorPaletteName = "PuOr" ∨ m.defaultColorPaletteName = "Reds" := by
  unfold TableColorMap.defaultColorPaletteName
  rw [hc]
  dsimp only
  have h1 : ¬(c.type = TableColumnType.enum ∨ c.type = TableColumnType.region) := by
    rw [hs]; simp
  rw [if_neg h1, if_pos hs]
  by_cases hdiv : m.isDiverging = true <;> simp [hdiv]

/-- With a valid environment, `colorScaleContinuous` is defined whenever the
color column is scalar. -/
theorem colorScaleContinuous_scalar_isSome (env : D3Env) (m : TableColorMap)
    (henv : D3EnvOk env) (c : TableColumn) (hc : m.colorColumn = some c)
    (hs : c.type = TableColumnType.scalar) :
    (m.colorScaleContinuous env).isSome = true := by
  obtain ⟨_, _, hcont, _⟩ := henv
  have hdefS : (env.interpolateScheme m.defaultColorPaletteName).isSome = true := by
    rcases defaultColorPaletteName_scalar m c hc hs with h | h <;> rw [h]
    · exact hcont "PuOr" (by simp)
    · exact hcont "Reds" (by simp)
  unfold TableColorMap.colorScaleContinuous
  cases hpal : m.colorTraits.colorPalette with
  | none =>
    dsimp only
    simpa using hdefS
  | some palette =>
    dsimp only
    cases hip : env.interpolateScheme palette with
    | none =>
      dsimp only
      simpa using hdefS
    | some f =>
      dsimp only
      simp

/-- With a valid environment, `enumColors` always resolves. -/
theorem enumColors_total (env : D3Env) (m : TableColorMap) (henv : D3EnvOk env) :
    ∃ l, m.enumColors env = some l := by
  have hdefault : ∃ l, m.defaultEnumColors env = some l := by
    unfold TableColorMap.defaultEnumColors
    cases hc : m.colorColumn with
    | none => exact ⟨[], rfl⟩
    | some c =>
      obtain ⟨l, hl⟩ := colorScaleCategorical_total env m henv c hc
        c.uniqueValues.values.length
      dsimp only
      simp only [hl, Option.map_some']
      exact ⟨_, rfl⟩
  unfold TableColorMap.enumColors
  cases ht : m.colorTraits.enumColors with
  | none =>
    dsimp only
    exact hdefault
  | some t =>
    dsimp only
    by_cases h0 : t.length ≠ 0
    · rw [if_pos h0]
      exact ⟨t, rfl⟩
    · rw [if_neg h0]
      exact hdefault

/-- With a valid environment, `binColors` resolves whenever a color column
is present. -/
theorem binColors_total (env : D3Env) (m : TableColorMap) (henv : D3EnvOk env)
    (c : TableColumn) (hc : m.colorColumn = some c) :
    ∃ l, m.binColors env = some l := by
  obtain ⟨l, hl⟩ := colorScaleCategorical_total env m henv c hc
    m.binMaximums.length
  unfold TableColorMap.binColors
  simp only [hl, Option.map_some']
  exact ⟨_, rfl⟩

/-- When `fallbackReached` holds, `colorMap` returns the constant
fallback. -/
theorem colorMap_eq_constantFallback (env : D3Env) (m : TableColorMap)
    (hfall : m.fallbackReached env) :
    m.colorMap env = some (m.constantFallback env) := by
  unfold TableColorMap.fallbackReached at hfall
  unfold TableColorMap.colorMap
  cases hc : m.colorColumn with
  | none => rfl
  | some c =>
    rw [hc] at hfall
    dsimp only at hfall ⊢
    by_cases hs : c.type = TableColumnType.scalar
    · rw [if_pos hs] at hfall
      rw [if_pos hs]
      obtain ⟨hb, hcont, hu⟩ := hfall
      rw [if_neg (by omega : ¬m.binMaximums.length > 0)]
      rw [if_neg hcont]
      rw [if_neg hu]
    · rw [if_neg hs] at hfall
      rw [if_neg hs]
      by_cases he : c.type = TableColumnType.enum ∨ c.type = TableColumnType.region
      · rw [if_pos he] at hfall
        rw [if_pos he]
        obtain ⟨ec, hec, hlen⟩ := hfall
        rw [hec]
        dsimp only
        rw [if_neg (by omega : ¬c.uniqueValues.values.length ≤ ec.length)]
      · rw [if_neg he]

/-- When the fallback candidate is empty, the constant fallback's color is
parsed from the default "yellow". -/
theorem constantFallback_default (env : D3Env) (m : TableColorMap)
    (hcand : m.fallbackColorCandidate env = none) :
    m.constantFallback env =
      ColorMap.constant (env.fromCssColorString DEFAULT_COLOR) m.title
        (if m.colorColumn.map TableColumn.type = some TableColumnType.region then
          some (m.nullColor env)
        else
          none) := by
  unfold TableColorMap.constantFallback
  rw [hcand]

/-- C9: with a valid scheme environment (which holds of the real
`d3-scale-chromatic` exports), `colorMap` is total: every combination of
title, color column and color traits yields a `ColorMap` (no undefined
result, no uncaught throw); and when no scalar, enumerated or region color
map applies and neither regionColor, nullColor, binColors nor the title
yields a color, the result is a `ConstantColorMap` whose color is parsed
from the default "yellow". -/
theorem colorMap_total_defaults_yellow (env : D3Env) (m : TableColorMap)
    (henv : D3EnvOk env) :
    (∃ cm, m.colorMap env = some cm)
    ∧ (m.fallbackReached env → m.fallbackColorCandidate env = none →
        m.colorMap env =
          some (ColorMap.constant (env.fromCssColorString DEFAULT_COLOR) m.title
            (if m.colorColumn.map TableColumn.type =
                some TableColumnType.region then
              some (m.nullColor env)
            else
              none))) := by
  constructor
  · unfold TableColorMap.colorMap
    cases hc : m.colorColumn with
    | none => exact ⟨_, rfl⟩
    | some c =>
      dsimp only
      by_cases hs : c.type = TableColumnType.scalar
      · rw [if_pos hs]
        by_cases hb : m.binMaximums.length > 0
        · rw [if_pos hb]
          obtain ⟨bc, hbc⟩ := binColors_total env m henv c hc
          rw [hbc]
          exact ⟨_, rfl⟩
        · rw [if_neg hb]
          by_cases hcont : m.minimumValue.isSome = true ∧
              m.maximumValue.isSome = true ∧
              m.minimumValue.getD 0 < m.maximumValue.getD 0
          · rw [if_pos hcont]
            exact ⟨_, rfl⟩
          · rw [if_neg hcont]
            by_cases hu : c.uniqueValues.values.length = 1
            · rw [if_pos hu]
              obtain ⟨f, hf⟩ := Option.isSome_iff_exists.mp
                (colorScaleContinuous_scalar_isSome env m henv c hc hs)
              rw [hf]
              exact ⟨_, rfl⟩
            · rw [if_neg hu]
              exact ⟨_, rfl⟩
      · rw [if_neg hs]
        by_cases he : c.type = TableColumnType.enum ∨
            c.type = TableColumnType.region
        · rw [if_pos he]
          obtain ⟨ec, hec⟩ := enumColors_total env m henv
          rw [hec]
          dsimp only
          by_cases hle : c.uniqueValues.values.length ≤ ec.length
          · rw [if_pos hle]
            exact ⟨_, rfl⟩
          · rw [if_neg hle]
            exact ⟨_, rfl⟩
        · rw [if_neg he]
          exact ⟨_, rfl⟩
  · intro hfall hcand
    rw [colorMap_eq_constantFallback env m hfall]
    rw [constantFallback_default env m hcand]

/-- The sample environment is valid: its single scheme is nonempty. -/
theorem sampleEnv_ok : D3EnvOk sampleEnv :=
  ⟨fun _name s n h => by
      injection h with h
      subst h
      exact ⟨["red", "green"], rfl⟩,
   fun _name _ => rfl,
   fun _name _ => rfl,
   by simp [sampleEnv]⟩

/-- C9 witness: a `TableColorMap` with no color column and no configured
colors reaches the fallback and resolves to the constant yellow map. -/
theorem colorMap_total_defaults_yellow_witness :
    TableColorMap.fallbackReached sampleEnv sampleBareColorMap ∧
    sampleBareColorMap.colorMap sampleEnv =
      some (ColorMap.constant (sampleEnv.fromCssColorString DEFAULT_COLOR)
        sampleBareColorMap.title
        (if sampleBareColorMap.colorColumn.map TableColumn.type =
            some TableColumnType.region then
          some (sampleBareColorMap.nullColor sampleEnv)
        else
          none)) :=
  ⟨trivial,
   (colorMap_total_defaults_yellow sampleEnv sampleBareColorMap sampleEnv_ok).2
     trivial rfl⟩

/-- C10: `binColors` pairs every entry of `binMaximums` with a color: the
result has exactly `binMaximums.length` entries; entry `i` is parsed from
the `binColors` trait when `i` is within that trait array (falling back to
`Color.TRANSPARENT` when the CSS string does not parse), and otherwise is
drawn from the categorical color scale at index `i` modulo the scale
length. -/
theorem binColors_pairs_bins (env : D3Env) (m : TableColorMap)
    (colorScale : List String)
    (hscale : m.colorScaleCategorical env m.binMaximums.length =
      some colorScale) :
    ∃ result, m.binColors env = some result ∧
      result.length = m.binMaximums.length ∧
      ∀ i < m.binMaximums.length,
        result.get? i = some
          (if i < (m.colorTraits.binColors.getD []).length then
            some ((env.fromCssColorString
              ((m.colorTraits.binColors.getD []).getD i "")).getD
              CesiumColor.TRANSPARENT)
          else
            (colorScale.get? (i % colorScale.length)).bind
              env.fromCssColorString) := by
  have hb : m.binColors env = some ((List.range m.binMaximums.length).map
      (fun i =>
        if i < (m.colorTraits.binColors.getD []).length then
          some ((env.fromCssColorString
            ((m.colorTraits.binColors.getD []).getD i "")).getD
            CesiumColor.TRANSPARENT)
        else
          (colorScale.get? (i % colorScale.length)).bind
            env.fromCssColorString)) := by
    unfold TableColorMap.binColors
    rw [hscale]
    rfl
  refine ⟨_, hb, by simp, ?_⟩
  intro i hi
  rw [List.get?_map, List.get?_range hi, Option.map_some']

/-- C10 witness: for the scalar column with bin maximums `[1, 2, 3]` and one
explicit bin color, `binColors` yields three colors — the first from the
trait, the remaining two cycled from the two-color categorical scale. -/
theorem binColors_pairs_bins_witness :
    ∃ result, sampleBinnedColorMap.binColors sampleEnv = some result ∧
      result.length = sampleBinnedColorMap.binMaximums.length ∧
      ∀ i < sampleBinnedColorMap.binMaximums.length,
        result.get? i = some
          (if i < (sampleBinnedColorMap.colorTraits.binColors.getD []).length then
            some ((sampleEnv.fromCssColorString
              ((sampleBinnedColorMap.colorTraits.binColors.getD []).getD i "")).getD
              CesiumColor.TRANSPARENT)
          else
            ((["red", "green"] : List String).get?
              (i % (["red", "green"] : List String).length)).bind
              sampleEnv.fromCssColorString) :=
  binColors_pairs_bins sampleEnv sampleBinnedColorMap ["red", "green"] (by rfl)
